import Mathlib

/-!
Shallow embedding of `SlamWrapper.cpp` from the DeadSlam repository: the JNI
bridge functions `Java_com_slamapp_SlamModule_initializeSlamNative`,
`processFrameNative`, `resetNative`, `shutdownNative` and
`getTrackingStateNative`.

Modelling conventions:
* The C++ global session state (`g_pSLAM`, `g_isInitialized`,
  `g_trackingState`, `g_currentPose`) becomes the structure `SlamState`,
  threaded explicitly through each operation.
* C `float` values are modelled as exact rationals; the increment `0.001f`
  becomes `1/1000`.
* A decoded `cv::Mat` is modelled as a wrapper around a list of pixel bytes;
  `cv::imread` is modelled by an explicit `FileSystem` environment mapping a
  file path to its decoded matrix (empty on failure), since the decode result
  depends only on the path and the files present.
* The JNI functions return `void`, a `jint`, or a `jfloatArray` that may be
  `nullptr`; the last is modelled by `ProcessResult`.
-/

namespace SlamWrapper

/-- Model of a decoded grayscale `cv::Mat`: its pixel buffer. -/
structure Mat where
  data : List Nat
deriving DecidableEq

/-- Model of `cv::Mat::empty()`. -/
def Mat.empty (m : Mat) : Bool := m.data.isEmpty

/-- Model of the pose array `g_currentPose[7] = [x, y, z, qx, qy, qz, qw]`. -/
structure Pose where
  x : ℚ
  y : ℚ
  z : ℚ
  qx : ℚ
  qy : ℚ
  qz : ℚ
  qw : ℚ
deriving DecidableEq

/-- The global mutable state of `SlamWrapper.cpp`: whether `g_pSLAM` is
non-null, `g_isInitialized`, `g_trackingState`, and `g_currentPose`. -/
structure SlamState where
  pSLAM : Bool
  isInitialized : Bool
  trackingState : ℤ
  currentPose : Pose
deriving DecidableEq

/-- The initial values of the globals at load time:
`g_pSLAM = nullptr`, `g_isInitialized = false`, `g_trackingState = 0`,
`g_currentPose = {0, 0, 0, 0, 0, 0, 1}`. -/
def initialState : SlamState :=
  { pSLAM := false
    isInitialized := false
    trackingState := 0
    currentPose := { x := 0, y := 0, z := 0, qx := 0, qy := 0, qz := 0, qw := 1 } }

/-- Environment for `cv::imread`: the grayscale matrix each file path decodes
to, an empty matrix modelling a failed or nonexistent load. -/
structure FileSystem where
  read : String → Mat

/-- Model of `base64ToMat`: the code declares `std::vector<uchar> data` and
never fills it, so `cv::imdecode` always receives an empty buffer and returns
an empty matrix, whatever the base64 payload is. -/
def base64ToMat (_base64Data : String) : Mat := { data := [] }

/-- Model of `loadImage`: `cv::imread(imagePath, IMREAD_GRAYSCALE)`. -/
def loadImage (fs : FileSystem) (imagePath : String) : Mat := fs.read imagePath

/-- Model of `s.find(pat) != std::string::npos`: substring containment. -/
def strContains (s pat : String) : Bool :=
  (List.range (s.data.length + 1)).any fun i => pat.data.isPrefixOf (s.data.drop i)

/-- The image dispatch inside `processFrameNative`: a string containing
`"data:image"` is treated as a base64 data URI, anything else as a file path. -/
def decodeFrame (fs : FileSystem) (imageStr : String) : Mat :=
  if strContains imageStr "data:image" then base64ToMat imageStr
  else loadImage fs imageStr

/-- Return value of `processFrameNative`: `nullResult` models the JNI
`return nullptr` (the error outcome), `pose` models the returned 7-float
array `[x, y, z, qx, qy, qz, qw]`. -/
inductive ProcessResult where
  | nullResult : ProcessResult
  | pose : Pose → ProcessResult
deriving DecidableEq

/-- Model of `Java_com_slamapp_SlamModule_initializeSlamNative`: the paths
are only read and logged; the try block contains no throwing statement in
this code (the ORB-SLAM3 construction is commented out), so the catch branch
is dead and the call unconditionally sets `g_isInitialized = true` and
`g_trackingState = 1` (NOT_INITIALIZED). -/
def initializeSlamNative (_vocabPath _settingsPath : String) (s : SlamState) : SlamState :=
  { s with isInitialized := true, trackingState := 1 }

/-- Model of `Java_com_slamapp_SlamModule_processFrameNative`: returns
`nullptr` if the system is uninitialized or the decoded frame is empty;
otherwise increments the pose position by `0.001` per axis, sets the
tracking state to `2` (OK), and returns a copy of the updated pose. The
timestamp is only logged. -/
def processFrameNative (fs : FileSystem) (imageData : String) (_timestamp : ℚ)
    (s : SlamState) : ProcessResult × SlamState :=
  if s.isInitialized = false then (ProcessResult.nullResult, s)
  else
    let frame := decodeFrame fs imageData
    if frame.empty then (ProcessResult.nullResult, s)
    else
      let newPose : Pose :=
        { s.currentPose with
            x := s.currentPose.x + 1 / 1000
            y := s.currentPose.y + 1 / 1000
            z := s.currentPose.z + 1 / 1000 }
      (ProcessResult.pose newPose,
       { s with currentPose := newPose, trackingState := 2 })

/-- Model of `Java_com_slamapp_SlamModule_resetNative`: zeroes pose entries
0 to 5, sets entry 6 (`qw`) to `1`, and sets the tracking state to `1`
(NOT_INITIALIZED); `g_isInitialized` and `g_pSLAM` are untouched (the
`if (g_pSLAM)` body is a comment). -/
def resetNative (s : SlamState) : SlamState :=
  { s with
      currentPose := { x := 0, y := 0, z := 0, qx := 0, qy := 0, qz := 0, qw := 1 }
      trackingState := 1 }

/-- Model of `Java_com_slamapp_SlamModule_shutdownNative`: nulls `g_pSLAM`
when set, and sets `g_isInitialized = false` and `g_trackingState = 0`; the
pose is untouched. -/
def shutdownNative (s : SlamState) : SlamState :=
  { s with pSLAM := false, isInitialized := false, trackingState := 0 }

/-- Model of `Java_com_slamapp_SlamModule_getTrackingStateNative`. -/
def getTrackingStateNative (s : SlamState) : ℤ := s.trackingState

/-- One JNI call, for stating properties of call sequences. -/
inductive Op where
  | init (vocabPath settingsPath : String)
  | process (fs : FileSystem) (imageData : String) (timestamp : ℚ)
  | reset
  | shutdown

/-- Whether the call is an `initializeSlamNative` call. -/
def Op.isInit : Op → Bool
  | .init _ _ => true
  | _ => false

/-- The state transition of one call (the returned value of
`processFrameNative` is dropped; the other calls return nothing relevant). -/
def applyOp (s : SlamState) : Op → SlamState
  | .init v p => initializeSlamNative v p s
  | .process fs img t => (processFrameNative fs img t s).2
  | .reset => resetNative s
  | .shutdown => shutdownNative s

/-- Run a sequence of calls from a state. -/
def runOps (s : SlamState) (ops : List Op) : SlamState := List.foldl applyOp s ops

/-- A session state reachable from the initial global state by some sequence
of JNI calls. -/
def Reachable (s : SlamState) : Prop := ∃ ops : List Op, runOps initialState ops = s

/-- The quaternion part of a pose is the identity `(0, 0, 0, 1)`. -/
def QuatId (p : Pose) : Prop := p.qx = 0 ∧ p.qy = 0 ∧ p.qz = 0 ∧ p.qw = 1

/-- A concrete file system where the file `a.png` decodes to a one-pixel
image and every other path fails to load. -/
def fsA : FileSystem :=
  { read := fun path => if path = "a.png" then { data := [1] } else { data := [] } }

/-- The state right after a first `initializeSlamNative` call. -/
def sInit : SlamState := initializeSlamNative "ORBvoc.txt" "settings.yaml" initialState

/-- The state reached by initializing and then processing one valid frame:
the tracking state is `2` (OK). -/
def sOK : SlamState := (processFrameNative fsA "a.png" 1 sInit).2

/-- Evaluation of `processFrameNative` on the success path: initialized
session, non-empty decoded frame. -/
lemma processFrame_success (fs : FileSystem) (img : String) (t : ℚ)
    (s : SlamState) (hinit : s.isInitialized = true)
    (hframe : (decodeFrame fs img).empty = false) :
    processFrameNative fs img t s =
      (ProcessResult.pose
         { s.currentPose with
             x := s.currentPose.x + 1 / 1000
             y := s.currentPose.y + 1 / 1000
             z := s.currentPose.z + 1 / 1000 },
       { s with
           currentPose :=
             { s.currentPose with
                 x := s.currentPose.x + 1 / 1000
                 y := s.currentPose.y + 1 / 1000
                 z := s.currentPose.z + 1 / 1000 }
           trackingState := 2 }) := by
  simp [processFrameNative, hinit, hframe]

/-- Evaluation of `processFrameNative` on an uninitialized session. -/
lemma processFrame_uninit (fs : FileSystem) (img : String) (t : ℚ)
    (s : SlamState) (h : s.isInitialized = false) :
    processFrameNative fs img t s = (ProcessResult.nullResult, s) := by
  simp [processFrameNative, h]

/-- Evaluation of `processFrameNative` when the decoded frame is empty. -/
lemma processFrame_emptyFrame (fs : FileSystem) (img : String) (t : ℚ)
    (s : SlamState) (hframe : (decodeFrame fs img).empty = true) :
    processFrameNative fs img t s = (ProcessResult.nullResult, s) := by
  unfold processFrameNative
  split
  · rfl
  · simp [hframe]

/-- The post-state of `processFrameNative` is either the input state
unchanged (an error path) or the incremented-pose OK state. -/
lemma processFrame_state_cases (fs : FileSystem) (img : String) (t : ℚ)
    (s : SlamState) :
    (processFrameNative fs img t s).2 = s ∨
    (processFrameNative fs img t s).2 =
      { s with
          currentPose :=
            { s.currentPose with
                x := s.currentPose.x + 1 / 1000
                y := s.currentPose.y + 1 / 1000
                z := s.currentPose.z + 1 / 1000 }
          trackingState := 2 } := by
  by_cases hinit : s.isInitialized = false
  · exact Or.inl (by rw [processFrame_uninit fs img t s hinit])
  · by_cases hframe : (decodeFrame fs img).empty = true
    · exact Or.inl (by rw [processFrame_emptyFrame fs img t s hframe])
    · right
      rw [processFrame_success fs img t s (by simpa using hinit) (by simpa using hframe)]

/-- No single call changes the quaternion part of the stored pose away from
the identity. -/
lemma applyOp_quatId (s : SlamState) (op : Op) (h : QuatId s.currentPose) :
    QuatId (applyOp s op).currentPose := by
  cases op with
  | init v p => exact h
  | process fs img t =>
      rcases processFrame_state_cases fs img t s with hc | hc <;>
        simp only [applyOp, hc] <;> exact h
  | reset => exact ⟨rfl, rfl, rfl, rfl⟩
  | shutdown => exact h

/-- The identity quaternion is preserved along any call sequence. -/
lemma runOps_quatId (ops : List Op) (s : SlamState) (h : QuatId s.currentPose) :
    QuatId (runOps s ops).currentPose := by
  induction ops generalizing s with
  | nil => exact h
  | cons op rest ih => exact ih (applyOp s op) (applyOp_quatId s op h)

/-- In every reachable state the stored quaternion is the identity. -/
lemma reachable_quatId (s : SlamState) (h : Reachable s) : QuatId s.currentPose := by
  obtain ⟨ops, rfl⟩ := h
  exact runOps_quatId ops initialState ⟨rfl, rfl, rfl, rfl⟩

/-- No single call sets the tracking state outside `{0, 1, 2}`. -/
lemma applyOp_tsRange (s : SlamState) (op : Op)
    (h : s.trackingState = 0 ∨ s.trackingState = 1 ∨ s.trackingState = 2) :
    (applyOp s op).trackingState = 0 ∨ (applyOp s op).trackingState = 1 ∨
      (applyOp s op).trackingState = 2 := by
  cases op with
  | init v p => exact Or.inr (Or.inl rfl)
  | process fs img t =>
      have ha : applyOp s (Op.process fs img t) = (processFrameNative fs img t s).2 := rfl
      rcases processFrame_state_cases fs img t s with hc | hc
      · rw [ha, hc]; exact h
      · rw [ha, hc]; exact Or.inr (Or.inr rfl)
  | reset => exact Or.inr (Or.inl rfl)
  | shutdown => exact Or.inl rfl

/-- The tracking-state range `{0, 1, 2}` is preserved along any call
sequence. -/
lemma runOps_tsRange (ops : List Op) (s : SlamState)
    (h : s.trackingState = 0 ∨ s.trackingState = 1 ∨ s.trackingState = 2) :
    (runOps s ops).trackingState = 0 ∨ (runOps s ops).trackingState = 1 ∨
      (runOps s ops).trackingState = 2 := by
  induction ops generalizing s with
  | nil => exact h
  | cons op rest ih => exact ih (applyOp s op) (applyOp_tsRange s op h)

/-- No call other than `initializeSlamNative` can make the session
initialized. -/
lemma applyOp_keeps_uninit (s : SlamState) (op : Op) (hop : op.isInit = false)
    (h : s.isInitialized = false) : (applyOp s op).isInitialized = false := by
  cases op with
  | init v p => simp [Op.isInit] at hop
  | process fs img t =>
      rcases processFrame_state_cases fs img t s with hc | hc <;>
        simp only [applyOp, hc] <;> exact h
  | reset => exact h
  | shutdown => rfl

/-- A call sequence without `initializeSlamNative` keeps an uninitialized
session uninitialized. -/
lemma runOps_keeps_uninit (ops : List Op) (s : SlamState)
    (hops : ∀ op ∈ ops, op.isInit = false) (h : s.isInitialized = false) :
    (runOps s ops).isInitialized = false := by
  induction ops generalizing s with
  | nil => exact h
  | cons op rest ih =>
      exact ih (applyOp s op) (fun o ho => hops o (List.mem_cons_of_mem op ho))
        (applyOp_keeps_uninit s op (hops op (List.mem_cons_self op rest)) h)

/-- The pose produced by the first successful frame after initialization. -/
def pA : Pose :=
  { x := 1 / 1000, y := 1 / 1000, z := 1 / 1000, qx := 0, qy := 0, qz := 0, qw := 1 }

/-- The session state after initialization and one successful frame. -/
def sA2 : SlamState :=
  { pSLAM := false, isInitialized := true, trackingState := 2, currentPose := pA }

/-- C1: when the session is initialized and the image decodes to a non-empty
frame, `processFrameNative` returns exactly the stored pose with x, y, z each
incremented by `1/1000` and the quaternion unchanged, stores that pose back
with tracking state `2`; moreover the outcome is the same for any other image
that decodes non-empty and any other timestamp, so the returned pose depends
on neither the image content nor the timestamp. -/
theorem processFrame_returns_incremented_pose (fs : FileSystem) (img : String)
    (t : ℚ) (s : SlamState) (hinit : s.isInitialized = true)
    (hframe : (decodeFrame fs img).empty = false) :
    processFrameNative fs img t s =
      (ProcessResult.pose
         { s.currentPose with
             x := s.currentPose.x + 1 / 1000
             y := s.currentPose.y + 1 / 1000
             z := s.currentPose.z + 1 / 1000 },
       { s with
           currentPose :=
             { s.currentPose with
                 x := s.currentPose.x + 1 / 1000
                 y := s.currentPose.y + 1 / 1000
                 z := s.currentPose.z + 1 / 1000 }
           trackingState := 2 }) ∧
    ∀ (fs2 : FileSystem) (img2 : String) (t2 : ℚ),
      (decodeFrame fs2 img2).empty = false →
      processFrameNative fs2 img2 t2 s = processFrameNative fs img t s := by
  refine ⟨processFrame_success fs img t s hinit hframe, ?_⟩
  intro fs2 img2 t2 h2
  rw [processFrame_success fs img t s hinit hframe,
    processFrame_success fs2 img2 t2 s hinit h2]

/-- C1 witness: concrete run of the first frame after initialization. -/
theorem processFrame_returns_incremented_pose_witness :
    sInit.isInitialized = true ∧ (decodeFrame fsA "a.png").empty = false ∧
    processFrameNative fsA "a.png" 5 sInit = (ProcessResult.pose pA, sA2) := by
  refine ⟨rfl, by decide, ?_⟩
  have h := (processFrame_returns_incremented_pose fsA "a.png" 5 sInit rfl (by decide)).1
  rw [h]
  norm_num [sInit, initializeSlamNative, initialState, pA, sA2, Prod.ext_iff]

/-- C2 counterexample: after a successful frame at timestamp `10`, a frame at
the strictly smaller timestamp `5` is not rejected: it returns a pose (not
the null error result) and mutates the stored session state. -/
theorem processFrame_decreasing_timestamp_accepted_cex :
    ((processFrameNative fsA "a.png" 5 (processFrameNative fsA "a.png" 10 sInit).2).1
        ≠ ProcessResult.nullResult) ∧
    (processFrameNative fsA "a.png" 5 (processFrameNative fsA "a.png" 10 sInit).2).2
        ≠ (processFrameNative fsA "a.png" 10 sInit).2 := by
  constructor
  · decide
  · intro heq
    have hx : ((0 : ℚ) + 1 / 1000) + 1 / 1000 = (0 : ℚ) + 1 / 1000 :=
      congrArg (fun st => st.currentPose.x) heq
    norm_num at hx

/-- C2 amended: `processFrameNative` performs no timestamp-ordering check: a
call whose timestamp is strictly smaller than a previous successful call's
behaves exactly as a call with any other timestamp would, returning a pose
and moving the tracking state to `2` (OK) instead of rejecting the frame. -/
theorem processFrame_ignores_timestamp_order (fs : FileSystem) (img : String)
    (t1 t2 : ℚ) (s : SlamState) (ht : t2 < t1) (hinit : s.isInitialized = true)
    (hframe : (decodeFrame fs img).empty = false) :
    processFrameNative fs img t2 (processFrameNative fs img t1 s).2
      = processFrameNative fs img t1 (processFrameNative fs img t1 s).2 ∧
    (processFrameNative fs img t2 (processFrameNative fs img t1 s).2).1
      = ProcessResult.pose
          { (processFrameNative fs img t1 s).2.currentPose with
              x := (processFrameNative fs img t1 s).2.currentPose.x + 1 / 1000
              y := (processFrameNative fs img t1 s).2.currentPose.y + 1 / 1000
              z := (processFrameNative fs img t1 s).2.currentPose.z + 1 / 1000 } ∧
    (processFrameNative fs img t2 (processFrameNative fs img t1 s).2).2.trackingState = 2 := by
  have h1 := processFrame_success fs img t1 s hinit hframe
  have hs1 : (processFrameNative fs img t1 s).2.isInitialized = true := by
    rw [h1]; exact hinit
  have h2 := processFrame_success fs img t2 (processFrameNative fs img t1 s).2 hs1 hframe
  have h1b := processFrame_success fs img t1 (processFrameNative fs img t1 s).2 hs1 hframe
  refine ⟨h2.trans h1b.symm, ?_, ?_⟩
  · rw [h2]
  · rw [h2]

/-- C2 amended witness: concrete decreasing-timestamp pair `10` then `5`. -/
theorem processFrame_ignores_timestamp_order_witness :
    (5 : ℚ) < 10 ∧ sInit.isInitialized = true ∧
    (decodeFrame fsA "a.png").empty = false ∧
    (processFrameNative fsA "a.png" 5 (processFrameNative fsA "a.png" 10 sInit).2).2.trackingState
      = 2 := by
  refine ⟨by norm_num, rfl, by decide, ?_⟩
  exact (processFrame_ignores_timestamp_order fsA "a.png" 10 5 sInit (by norm_num) rfl
    (by decide)).2.2

/-- C3: `getTrackingStateNative` right after `initializeSlamNative` returns
`1` (NOT_INITIALIZED); and after `shutdownNative`, as long as no further
`initializeSlamNative` call occurs, every `processFrameNative` call returns
the null error result and leaves the state unchanged instead of producing a
pose. -/
theorem init_state_one_and_shutdown_blocks_process :
    (∀ (v p : String) (s : SlamState),
        getTrackingStateNative (initializeSlamNative v p s) = 1) ∧
    (∀ (s : SlamState) (ops : List Op), (∀ op ∈ ops, op.isInit = false) →
        ∀ (fs : FileSystem) (img : String) (t : ℚ),
          processFrameNative fs img t (runOps (shutdownNative s) ops)
            = (ProcessResult.nullResult, runOps (shutdownNative s) ops)) := by
  constructor
  · intro v p s; rfl
  · intro s ops hops fs img t
    exact processFrame_uninit fs img t _ (runOps_keeps_uninit ops (shutdownNative s) hops rfl)

/-- C3 witness: concrete initialization, and a process call after shutdown
followed by a reset, which still fails with the null result. -/
theorem init_state_one_and_shutdown_blocks_process_witness :
    getTrackingStateNative (initializeSlamNative "ORBvoc.txt" "settings.yaml" initialState) = 1 ∧
    processFrameNative fsA "a.png" 3 (runOps (shutdownNative sOK) [Op.reset])
      = (ProcessResult.nullResult, runOps (shutdownNative sOK) [Op.reset]) := by
  constructor
  · exact init_state_one_and_shutdown_blocks_process.1 "ORBvoc.txt" "settings.yaml" initialState
  · exact init_state_one_and_shutdown_blocks_process.2 sOK [Op.reset]
      (by intro op hop; rw [List.mem_singleton] at hop; subst hop; rfl) fsA "a.png" 3

/-- C4: every pose returned by `processFrameNative` from a reachable session
state carries a quaternion of unit norm within `1e-4` — in fact exactly unit,
since the stored quaternion is always the identity `(0, 0, 0, 1)`. -/
theorem returned_pose_quaternion_unit_norm (s : SlamState) (h : Reachable s)
    (fs : FileSystem) (img : String) (t : ℚ) (p : Pose) (s2 : SlamState)
    (hres : processFrameNative fs img t s = (ProcessResult.pose p, s2)) :
    |1 - Real.sqrt ((p.qx ^ 2 + p.qy ^ 2 + p.qz ^ 2 + p.qw ^ 2 : ℚ) : ℝ)|
      < 1 / 10 ^ 4 := by
  obtain ⟨hqx, hqy, hqz, hqw⟩ := reachable_quatId s h
  by_cases hinit : s.isInitialized = false
  · rw [processFrame_uninit fs img t s hinit] at hres
    exact absurd (congrArg Prod.fst hres) (by simp)
  · by_cases hframe : (decodeFrame fs img).empty = true
    · rw [processFrame_emptyFrame fs img t s hframe] at hres
      exact absurd (congrArg Prod.fst hres) (by simp)
    · rw [processFrame_success fs img t s (by simpa using hinit)
        (by simpa using hframe)] at hres
      have h1 : ProcessResult.pose
          { s.currentPose with
              x := s.currentPose.x + 1 / 1000
              y := s.currentPose.y + 1 / 1000
              z := s.currentPose.z + 1 / 1000 } = ProcessResult.pose p :=
        congrArg Prod.fst hres
      rw [ProcessResult.pose.injEq] at h1
      rw [← h1]
      show |1 - Real.sqrt ((s.currentPose.qx ^ 2 + s.currentPose.qy ^ 2 +
        s.currentPose.qz ^ 2 + s.currentPose.qw ^ 2 : ℚ) : ℝ)| < 1 / 10 ^ 4
      rw [hqx, hqy, hqz, hqw]
      norm_num [Real.sqrt_one]

/-- C4 witness: concrete reachable state, concrete returned pose. -/
theorem returned_pose_quaternion_unit_norm_witness :
    Reachable sInit ∧
    processFrameNative fsA "a.png" 5 sInit = (ProcessResult.pose pA, sA2) ∧
    |1 - Real.sqrt ((pA.qx ^ 2 + pA.qy ^ 2 + pA.qz ^ 2 + pA.qw ^ 2 : ℚ) : ℝ)|
      < 1 / 10 ^ 4 := by
  have hreach : Reachable sInit := ⟨[Op.init "ORBvoc.txt" "settings.yaml"], rfl⟩
  have hres : processFrameNative fsA "a.png" 5 sInit = (ProcessResult.pose pA, sA2) := by
    rw [processFrame_success fsA "a.png" 5 sInit rfl (by decide)]
    norm_num [sInit, initializeSlamNative, initialState, pA, sA2, Prod.ext_iff]
  exact ⟨hreach, hres,
    returned_pose_quaternion_unit_norm sInit hreach fsA "a.png" 5 pA sA2 hres⟩

/-- C5 counterexample: from the OK state, an image that decodes to an empty
frame (here a base64 data URI, which this code always decodes to an empty
matrix) yields the null result but does NOT transition the tracking state to
`3` (LOST): the state is left unchanged, still `2` (OK). -/
theorem empty_image_keeps_ok_state_cex :
    sOK.trackingState = 2 ∧
    processFrameNative fsA "data:image/png;base64,AAA" 2 sOK
      = (ProcessResult.nullResult, sOK) ∧
    (processFrameNative fsA "data:image/png;base64,AAA" 2 sOK).2.trackingState ≠ 3 := by
  have he : processFrameNative fsA "data:image/png;base64,AAA" 2 sOK
      = (ProcessResult.nullResult, sOK) :=
    processFrame_emptyFrame _ _ _ _ (by decide)
  refine ⟨by decide, he, ?_⟩
  rw [he]
  decide

/-- C5 amended: when the session is in tracking state `2` (OK) and the image
decodes to an empty frame, the call returns the null error result (there is
no exception path) and leaves the session state entirely unchanged: the
tracking state stays `2` rather than transitioning to `3` (LOST), and the
previously stored pose remains stored as the last known pose. -/
theorem empty_image_returns_null_state_unchanged (fs : FileSystem)
    (img : String) (t : ℚ) (s : SlamState) (hok : s.trackingState = 2)
    (hframe : (decodeFrame fs img).empty = true) :
    processFrameNative fs img t s = (ProcessResult.nullResult, s) ∧
    (processFrameNative fs img t s).2.trackingState = 2 ∧
    (processFrameNative fs img t s).2.currentPose = s.currentPose := by
  have he := processFrame_emptyFrame fs img t s hframe
  exact ⟨he, by rw [he]; exact hok, by rw [he]⟩

/-- C5 amended witness: concrete empty-decoding image fed in the OK state. -/
theorem empty_image_returns_null_state_unchanged_witness :
    sOK.trackingState = 2 ∧
    (decodeFrame fsA "data:image/png;base64,AAA").empty = true ∧
    (processFrameNative fsA "data:image/png;base64,AAA" 2 sOK).2.currentPose
      = sOK.currentPose := by
  refine ⟨by decide, by decide, ?_⟩
  exact (empty_image_returns_null_state_unchanged fsA "data:image/png;base64,AAA" 2 sOK
    (by decide) (by decide)).2.2

/-- C6 counterexample: starting from tracking state `1` (NOT_INITIALIZED) in
an initialized session, two `processFrameNative` calls with the identical
image (zero parallax) DO move the tracking state to `2` (OK). -/
theorem identical_frames_reach_ok_cex :
    sInit.trackingState = 1 ∧
    (runOps sInit [Op.process fsA "a.png" 1, Op.process fsA "a.png" 2]).trackingState
      = 2 := by
  decide

/-- C6 amended: the code performs no parallax or triangulation-baseline
check: from tracking state `1` (NOT_INITIALIZED) in an initialized session,
two `processFrameNative` calls with the identical image (any image decoding
non-empty) transition the tracking state to `2` (OK) — already the first
call does. -/
theorem identical_frames_reach_ok (fs : FileSystem) (img : String)
    (t1 t2 : ℚ) (s : SlamState) (hinit : s.isInitialized = true)
    (hts : s.trackingState = 1) (hframe : (decodeFrame fs img).empty = false) :
    (runOps s [Op.process fs img t1, Op.process fs img t2]).trackingState = 2 := by
  have h1 := processFrame_success fs img t1 s hinit hframe
  have hs1 : (processFrameNative fs img t1 s).2.isInitialized = true := by
    rw [h1]; exact hinit
  have h2 := processFrame_success fs img t2 (processFrameNative fs img t1 s).2 hs1 hframe
  show (processFrameNative fs img t2 (processFrameNative fs img t1 s).2).2.trackingState = 2
  rw [h2]

/-- C6 amended witness: two identical concrete frames from the
NOT_INITIALIZED state. -/
theorem identical_frames_reach_ok_witness :
    sInit.isInitialized = true ∧ sInit.trackingState = 1 ∧
    (decodeFrame fsA "a.png").empty = false ∧
    (runOps sInit [Op.process fsA "a.png" 1, Op.process fsA "a.png" 2]).trackingState
      = 2 :=
  ⟨rfl, rfl, by decide, identical_frames_reach_ok fsA "a.png" 1 2 sInit rfl rfl (by decide)⟩

/-- C7: from any session state, `resetNative` sets the tracking state to `1`
(NOT_INITIALIZED) and clears the pose: position `(0, 0, 0)` and identity
quaternion `(0, 0, 0, 1)`. -/
theorem reset_clears_pose_and_state (s : SlamState) :
    (resetNative s).trackingState = 1 ∧
    (resetNative s).currentPose =
      { x := 0, y := 0, z := 0, qx := 0, qy := 0, qz := 0, qw := 1 } :=
  ⟨rfl, rfl⟩

/-- C8 counterexample: initialization with paths naming no readable file
still marks the session initialized and sets tracking state `1`, reporting
no error: the function reads no file at all, so it cannot fail. -/
theorem init_with_bad_paths_still_initializes_cex :
    (initializeSlamNative "/nonexistent/ORBvoc.txt" "/bad/settings.yaml"
        initialState).isInitialized = true ∧
    getTrackingStateNative
        (initializeSlamNative "/nonexistent/ORBvoc.txt" "/bad/settings.yaml"
          initialState) = 1 :=
  ⟨rfl, rfl⟩

/-- C8 amended: `initializeSlamNative` never fails and loads no file: for
every pair of paths, readable or not, it marks the session initialized and
sets the tracking state to `1` (NOT_INITIALIZED); no `InitError` outcome
exists in the code, whose catch branch is dead. -/
theorem init_unconditionally_marks_initialized (v p : String) (s : SlamState) :
    initializeSlamNative v p s = { s with isInitialized := true, trackingState := 1 } :=
  rfl

/-- C9: `shutdownNative` is idempotent: a second consecutive call leaves the
session in exactly the state (`g_pSLAM` nullness, initialized flag, tracking
state, pose) produced by the first, and like every call here it always
succeeds. -/
theorem shutdown_idempotent (s : SlamState) :
    shutdownNative (shutdownNative s) = shutdownNative s :=
  rfl

/-- C10: in every reachable session state the tracking state is `0`, `1` or
`2`; `getTrackingStateNative` never returns `3` (LOST). -/
theorem trackingState_never_lost (s : SlamState) (h : Reachable s) :
    (getTrackingStateNative s = 0 ∨ getTrackingStateNative s = 1 ∨
      getTrackingStateNative s = 2) ∧ getTrackingStateNative s ≠ 3 := by
  obtain ⟨ops, rfl⟩ := h
  have hr := runOps_tsRange ops initialState (Or.inl rfl)
  refine ⟨hr, fun h3 => ?_⟩
  have h3b : (runOps initialState ops).trackingState = 3 := h3
  rcases hr with hts | hts | hts <;> rw [hts] at h3b <;> exact absurd h3b (by decide)

/-- C10 witness: the initial state is reachable; its tracking state is `0`,
not `3`. -/
theorem trackingState_never_lost_witness :
    Reachable initialState ∧
    ((getTrackingStateNative initialState = 0 ∨
        getTrackingStateNative initialState = 1 ∨
        getTrackingStateNative initialState = 2) ∧
      getTrackingStateNative initialState ≠ 3) :=
  ⟨⟨[], rfl⟩, trackingState_never_lost initialState ⟨[], rfl⟩⟩

end SlamWrapper
